import Mathlib

/-!
Shallow embedding of the commune repository's three source files:

* `src/commune/trainer/dream/trainer_dream.py` (`DreamTrainer`)
* `src/commune/modules/data/text/realfake/data_text_realfake.py` (`DataTextRealfake`)
* `src/commune/module/wrap.py` (`ModuleWrapper`)

Machine integers are modelled as `Nat`/`Int`; Python exceptions are modelled
with `Except` and an explicit error type.  External framework objects
(accelerator, torch models, dataloaders) are abstracted to the quantities the
code reads from them (lengths, process counts, sync flags).
-/

set_option maxRecDepth 16384

deriving instance DecidableEq for Except

namespace Commune

/-- Python exceptions raised by the embedded code paths. -/
inductive PyError where
  | nameError (name : String)
  | valueError (msg : String)
  | unboundLocalError (name : String)
  | typeError (msg : String)
deriving DecidableEq, Repr

/-- Embedding of Python `math.ceil(a / b)` for non-negative integers
(`trainer_dream.py` lines 168, 206, 210). -/
def ceilDiv (a b : Nat) : Nat := (a + b - 1) / b

/-- Embedding of `trainer_dream.py` lines 242-246: given the global step `g`
parsed from the checkpoint directory name, the code computes
`resume_global_step = g * gradient_accumulation_steps` and then
`first_epoch = resume_global_step // num_update_steps_per_epoch`,
`resume_step = resume_global_step % num_update_steps_per_epoch`. -/
def resumePosition (globalStep gradAccumSteps numUpdateStepsPerEpoch : Nat) : Nat × Nat :=
  let resumeGlobalStep := globalStep * gradAccumSteps
  (resumeGlobalStep / numUpdateStepsPerEpoch, resumeGlobalStep % numUpdateStepsPerEpoch)

/-- Embedding of `trainer_dream.py` lines 490-493 (`parse_args`): the code
computes `env_local_rank = int(os.environ.get("LOCAL_RANK", -1))` and then
evaluates `env_local_rank != -1 and env_local_rank != self.args.local_rank`.
`parse_args` is a `@staticmethod`, so the name `self` is unbound: whenever the
first conjunct is true the second conjunct's evaluation raises `NameError`.
When the first conjunct is false, short-circuiting skips it and the parsed
value is returned unchanged. -/
def parseArgsLocalRank (envLocalRank : Option Int) (parsedLocalRank : Int) : Except PyError Int :=
  let env := envLocalRank.getD (-1)
  if env ≠ -1 then Except.error (PyError.nameError "self")
  else Except.ok parsedLocalRank

/-- Result of the training-step budget computation (`max_train_steps`,
`num_train_epochs`) after `trainer_dream.py` lines 166-171 and 205-210. -/
structure StepBudget where
  maxTrainSteps : Nat
  numTrainEpochs : Nat
deriving DecidableEq, Repr

/-- Embedding of the two-pass step-budget computation exactly as written in
`trainer_dream.py`: the first pass (line 168) uses `len(self.dataloader)`,
while the second pass (line 206) uses `len(self.dataset)` — the number of
dataset examples, not the prepared data loader's length.  Line 210 then
recomputes `num_train_epochs` from the second-pass value. -/
def stepBudget (numTrainEpochs : Nat) (maxTrainStepsArg : Option Nat) (gradAccumSteps : Nat)
    (dataloaderLen datasetLen : Nat) : StepBudget :=
  let nupe1 := ceilDiv dataloaderLen gradAccumSteps
  let firstPass : Nat × Bool :=
    match maxTrainStepsArg with
    | none => (numTrainEpochs * nupe1, true)
    | some m => (m, false)
  let nupe2 := ceilDiv datasetLen gradAccumSteps
  let max2 := if firstPass.2 then numTrainEpochs * nupe2 else firstPass.1
  { maxTrainSteps := max2, numTrainEpochs := ceilDiv max2 nupe2 }

/-- The step-budget computation as the specification describes it: both passes
use the number of batches per epoch from the data loader, the second pass
using the effective post-wrapping length of the prepared data loader. -/
def stepBudgetSpec (numTrainEpochs : Nat) (maxTrainStepsArg : Option Nat) (gradAccumSteps : Nat)
    (dataloaderLen preparedDataloaderLen : Nat) : StepBudget :=
  let nupe1 := ceilDiv dataloaderLen gradAccumSteps
  let firstPass : Nat × Bool :=
    match maxTrainStepsArg with
    | none => (numTrainEpochs * nupe1, true)
    | some m => (m, false)
  let nupe2 := ceilDiv preparedDataloaderLen gradAccumSteps
  let max2 := if firstPass.2 then numTrainEpochs * nupe2 else firstPass.1
  { maxTrainSteps := max2, numTrainEpochs := ceilDiv max2 nupe2 }

/-- Embedding of Python `s.split(sep)` for a one-character separator, acting
on the character list of a string. -/
def splitOnChar (c : Char) : List Char → List (List Char)
  | [] => [[]]
  | x :: xs =>
    let r := splitOnChar c xs
    if x = c then [] :: r
    else
      match r with
      | [] => [[x]]
      | h :: t => (x :: h) :: t

/-- Embedding of Python `int(...)` on a string of decimal digits. -/
def digitsToNat (cs : List Char) : Nat :=
  cs.foldl (fun n d => n * 10 + (d.toNat - 48)) 0

/-- Embedding of the sort key `lambda x: int(x.split("-")[1])` from
`trainer_dream.py` line 238, for names of the form `checkpoint-<digits>`
(on other inputs Python `int` would raise; the claim only concerns
well-formed checkpoint directory names). -/
def checkpointKey (s : String) : Nat :=
  digitsToNat ((splitOnChar '-' s.data).getD 1 [])

/-- Embedding of `d.startswith("checkpoint")` from `trainer_dream.py`
line 237. -/
def isCheckpointDir (d : String) : Bool :=
  "checkpoint".data.isPrefixOf d.data

/-- Embedding of `trainer_dream.py` lines 236-239 for
`resume_from_checkpoint == "latest"`: filter the directory listing to names
starting with `checkpoint`, sort by the numeric trailing step (Python
`sorted` is a stable sort, matched by `List.mergeSort`), and take the last
element (`dirs[-1]`; `none` models the `IndexError` on an empty listing). -/
def selectLatestCheckpoint (dirs : List String) : Option String :=
  let ds := dirs.filter isCheckpointDir
  (ds.mergeSort (fun a b => decide (checkpointKey a ≤ checkpointKey b))).getLast?

/-- Mutable training-loop state: the `global_step` counter and the list of
checkpoint save events `(global_step, path)` performed so far
(`trainer_dream.py` lines 228, 563-572). -/
structure TrainState where
  globalStep : Nat
  saves : List (Nat × String)
deriving DecidableEq, Repr

/-- Embedding of the save path `f"checkpoint-{global_step}"` from
`trainer_dream.py` line 570 (relative to `output_dir`). -/
def savePath (globalStep : Nat) : String :=
  "checkpoint-" ++ toString globalStep

/-- One iteration of the inner batch loop of `train_epoch`
(`trainer_dream.py` lines 512-576), with the external framework abstracted:
`sync` is the accelerator's `sync_gradients` flag.  On a sync boundary the
optimizer update happens, `global_step` is incremented (line 566), and when
`global_step % checkpointing_steps == 0` on the main process a checkpoint is
saved under `savePath global_step` (lines 568-572). -/
def batchStep (checkpointingSteps : Nat) (isMainProcess : Bool) (sync : Bool)
    (st : TrainState) : TrainState :=
  if sync then
    let gs := st.globalStep + 1
    let saves :=
      if gs % checkpointingSteps == 0 && isMainProcess then
        st.saves ++ [(gs, savePath gs)]
      else st.saves
    { globalStep := gs, saves := saves }
  else st

/-- The inner batch loop of `train_epoch` over one epoch's batches (their
sync flags): after each batch body the code checks
`if global_step >= self.args.max_train_steps: break` (lines 578-579). -/
def runBatches (checkpointingSteps : Nat) (isMainProcess : Bool)
    (maxTrainSteps : Nat) : List Bool → TrainState → TrainState
  | [], st => st
  | sync :: rest, st =>
    let st1 := batchStep checkpointingSteps isMainProcess sync st
    if maxTrainSteps ≤ st1.globalStep then st1
    else runBatches checkpointingSteps isMainProcess maxTrainSteps rest st1

/-- The outer epoch loop of `train_epoch` (line 508): it iterates over all
its epochs unconditionally (there is no outer `break`; the barrier at line
581 has no effect on the counters). -/
def runEpochs (checkpointingSteps : Nat) (isMainProcess : Bool)
    (maxTrainSteps : Nat) : List (List Bool) → TrainState → TrainState
  | [], st => st
  | epoch :: rest, st =>
    runEpochs checkpointingSteps isMainProcess maxTrainSteps rest
      (runBatches checkpointingSteps isMainProcess maxTrainSteps epoch st)

/-- Embedding of `trainer_dream.py` line 210: after the second step-budget
pass the code sets
`num_train_epochs = math.ceil(max_train_steps / num_update_steps_per_epoch)`. -/
def numTrainEpochsFinal (maxTrainSteps numUpdateStepsPerEpoch : Nat) : Nat :=
  ceilDiv maxTrainSteps numUpdateStepsPerEpoch

/-- A fresh (non-resumed) training run: `global_step = 0`, `first_epoch = 0`
(lines 228-229), `numTrainEpochsFinal` epochs of `stepsPerEpoch` optimizer
updates each (every batch is a sync boundary, i.e.
`gradient_accumulation_steps = 1`). -/
def trainRun (maxTrainSteps stepsPerEpoch checkpointingSteps : Nat)
    (isMainProcess : Bool) : TrainState :=
  runEpochs checkpointingSteps isMainProcess maxTrainSteps
    (List.replicate (numTrainEpochsFinal maxTrainSteps stepsPerEpoch)
      (List.replicate stepsPerEpoch true))
    { globalStep := 0, saves := [] }

/-- The regression target chosen by the training loop: the injected noise, or
the result of `noise_scheduler.get_velocity(latents, noise, timesteps)`
(tensors abstracted to an arbitrary type `α`). -/
inductive NoiseTarget (α : Type) where
  | fromNoise (noise : α)
  | velocity (latents noise timesteps : α)
deriving DecidableEq

/-- Embedding of `trainer_dream.py` lines 542-547: dispatch on
`noise_scheduler.config.prediction_type`. -/
def selectTarget {α : Type} (predictionType : String) (latents noise timesteps : α) :
    Except PyError (NoiseTarget α) :=
  if predictionType = "epsilon" then Except.ok (NoiseTarget.fromNoise noise)
  else if predictionType = "v_prediction" then
    Except.ok (NoiseTarget.velocity latents noise timesteps)
  else Except.error (PyError.valueError ("Unknown prediction type " ++ predictionType))

/-- Embedding of lines 542-549: the target is selected, then the loss is
computed from it (`F.mse_loss` abstracted as `mseLoss`); if the dispatch
raises, the loss computation is never reached. -/
def batchLoss {α β : Type} (predictionType : String) (latents noise timesteps : α)
    (mseLoss : NoiseTarget α → β) : Except PyError β :=
  (selectTarget predictionType latents noise timesteps).map mseLoss

/-- The local names bound in `DreamTrainer.__init__` before line 45 is
reached (`self`, `model`, `dataset`; `self.logging_dir` is an attribute, not
a local, and there is no module-level `logging_dir`). -/
def initBoundLocals : List String := ["self", "model", "dataset"]

/-- The configuration fields read by the checked combination at
`trainer_dream.py` line 55. -/
structure TrainerFlags where
  trainTextEncoder : Bool
  gradientAccumulationSteps : Nat
deriving DecidableEq, Repr

/-- The `ValueError` message of `trainer_dream.py` lines 56-59. -/
def gradAccumTextEncoderMsg : String :=
  "Gradient accumulation is not supported when training the text encoder in distributed training. Please set gradient_accumulation_steps to 1. This feature will be supported in the future."

/-- Embedding of the `DreamTrainer.__init__` head (lines 45-100) as written:
evaluating the `Accelerator` keyword `logging_dir=logging_dir` (line 49)
looks up the bare name `logging_dir`, which is unbound, so a `NameError` is
raised; only then would the configuration check (line 55) and the three
`from_pretrained` loads (lines 86-100, returned as the list of loaded
sub-models) follow. -/
def trainerInitModels (flags : TrainerFlags) (numProcesses : Nat) :
    Except PyError (List String) :=
  if "logging_dir" ∈ initBoundLocals then
    if flags.trainTextEncoder && decide (1 < flags.gradientAccumulationSteps)
        && decide (1 < numProcesses) then
      Except.error (PyError.valueError gradAccumTextEncoderMsg)
    else Except.ok ["text_encoder", "vae", "unet"]
  else Except.error (PyError.nameError "logging_dir")

/-- The same `__init__` head with the evident intent of line 49 (the
`Accelerator` call receives the logging directory computed on line 43, as in
the upstream script this file adapts): the configuration check of line 55
then runs, and fires before any sub-model is loaded. -/
def trainerInitModelsIntended (flags : TrainerFlags) (numProcesses : Nat) :
    Except PyError (List String) :=
  if flags.trainTextEncoder && decide (1 < flags.gradientAccumulationSteps)
      && decide (1 < numProcesses) then
    Except.error (PyError.valueError gradAccumTextEncoderMsg)
  else Except.ok ["text_encoder", "vae", "unet"]

/-- A sample returned by `DataTextRealfake.sample` (text modelled as
character lists). -/
structure RFSample where
  inputText : List Char
  outputText : List Char
  filepath : String
  real : Nat
deriving DecidableEq, Repr

/-- Embedding of `data_text_realfake.py` lines 23-25: the file's text sliced
from the chosen start line (`'\n'.join(file_text.split('\n')[start:])`). -/
def sliceFromLine (fileLines : List (List Char)) (start : Nat) : List Char :=
  List.intercalate ['\n'] (fileLines.drop start)

/-- Embedding of `DataTextRealfake.sample` (lines 13-44) for one chosen file,
given its lines.  When `random_start_line` is `None` (the default), line 21
reads the local `num_lines` before line 22 assigns it, raising
`UnboundLocalError`.  Otherwise the text is sliced from the start line and
split at `int(len(file_text) * 0.5)` characters (exact: `n/2`).  `realDraw`
is the outcome of `c.random_float(0,1) > real_prob` (line 34); when it is
false the fake branch (line 40) evaluates the undefined name `output_tokens`
and raises `NameError`. -/
def sample (fileLines : List (List Char)) (filepath : String)
    (randomStartLine : Option Nat) (realDraw : Bool) : Except PyError RFSample :=
  match randomStartLine with
  | none => Except.error (PyError.unboundLocalError "num_lines")
  | some start =>
    let fileText := sliceFromLine fileLines start
    let inputChars := fileText.length / 2
    if realDraw then
      Except.ok
        { inputText := fileText.take inputChars
          outputText := fileText.drop inputChars
          filepath := filepath
          real := 1 }
    else Except.error (PyError.nameError "output_tokens")

/-- A Python value as seen by `ModuleWrapper`: either a plain (non-callable)
value or a callable taking argument lists (argument and return values
abstracted to `α`). -/
inductive PyVal (α : Type) where
  | base (a : α)
  | func (f : List α → Except PyError α)

/-- The protected-name set of `wrap.py` line 6. -/
def protected_attributes : List String :=
  ["info", "serve", "module_file", "module_path", "server_name", "test"]

/-- Calling a Python value: calling a non-callable raises `TypeError`. -/
def callPyVal {α : Type} : PyVal α → List α → Except PyError α
  | PyVal.func f, args => f args
  | PyVal.base _, _ => Except.error (PyError.typeError "object is not callable")

/-- Whether a Python value is callable. -/
def isCallable {α : Type} : PyVal α → Bool
  | PyVal.func _ => true
  | PyVal.base _ => false

/-- Embedding of `ModuleWrapper.__getattr__` (`wrap.py` lines 30-35):
protected names resolve against the wrapper itself (`selfAttr`); any other
name returns the freshly constructed
`lambda *args, **kwargs: getattr(self.module, key)(*args, **kwargs)`, which
on call looks the name up on the delegate (`moduleAttr`) and calls it. -/
def wrapperGetattr {α : Type} (selfAttr moduleAttr : String → PyVal α)
    (key : String) : PyVal α :=
  if key ∈ protected_attributes then selfAttr key
  else PyVal.func (fun args => callPyVal (moduleAttr key) args)

/-- Claim C1 (counterexample): with gradient_accumulation_steps a = 2,
steps-per-epoch s = 3 and restored global step g = 3, the code recovers
`(first_epoch, resume_step) = (2, 0)`, not the claimed
`(g // s, g % s) = (1, 0)`. -/
theorem resumePosition_counterexample :
    resumePosition 3 2 3 = (2, 0) ∧ resumePosition 3 2 3 ≠ (3 / 3, 3 % 3) := by
  decide

/-- Claim C1 (amended): the recovered pair is the Euclidean decomposition of
`g * a` (not of `g`) by steps-per-epoch `s`:
`first_epoch * s + resume_step = g * a` with `resume_step < s`; it equals the
claimed `(g // s, g % s)` whenever `gradient_accumulation_steps = 1`. -/
theorem resumePosition_euclidean (g a s : Nat) (hs : 0 < s) :
    (resumePosition g a s).1 * s + (resumePosition g a s).2 = g * a ∧
    (resumePosition g a s).2 < s ∧
    (a = 1 → resumePosition g a s = (g / s, g % s)) := by
  refine ⟨?_, Nat.mod_lt _ hs, ?_⟩
  · simpa [resumePosition] using Nat.div_add_mod' (g * a) s
  · intro ha
    subst ha
    simp [resumePosition]

/-- Claim C1 witness: the amended statement at `g = 7`, `a = 1`, `s = 3`. -/
theorem resumePosition_euclidean_witness :
    (0 < 3) ∧
    ((resumePosition 7 1 3).1 * 3 + (resumePosition 7 1 3).2 = 7 * 1 ∧
      (resumePosition 7 1 3).2 < 3 ∧
      (1 = 1 → resumePosition 7 1 3 = (7 / 3, 7 % 3))) :=
  ⟨by decide, resumePosition_euclidean 7 1 3 (by decide)⟩

/-- Claim C9: when the environment variable LOCAL_RANK is set to a value
other than -1, `parse_args` does not return an overridden configuration but
raises `NameError` (the static method reads `self.args`); when LOCAL_RANK is
unset (or -1) the parsed flag value is kept as claimed. -/
theorem parseArgs_local_rank_env_raises :
    parseArgsLocalRank (some 0) (-1) = Except.error (PyError.nameError "self") ∧
    parseArgsLocalRank none 7 = Except.ok 7 ∧
    parseArgsLocalRank (some (-1)) 7 = Except.ok 7 := by
  decide

/-- Claim C6: at epochs = 1, gradient_accumulation_steps = 1, max_train_steps
unset, a pre-wrapping dataloader of 2 batches, a prepared dataloader of 2
batches and a dataset of 8 examples, the code's second pass (which reads
`len(self.dataset)`) yields a step budget of 8, while the specified second
pass over the prepared data loader's length yields 2. -/
theorem stepBudget_two_pass_divergence :
    stepBudget 1 none 1 2 8 = { maxTrainSteps := 8, numTrainEpochs := 1 } ∧
    stepBudgetSpec 1 none 1 2 2 = { maxTrainSteps := 2, numTrainEpochs := 1 } ∧
    stepBudget 1 none 1 2 8 ≠ stepBudgetSpec 1 none 1 2 2 := by
  decide

/-- Claim C4: for every configuration, `DreamTrainer.__init__` as written
raises `NameError` on the unbound name `logging_dir` at the `Accelerator`
call (line 49), before the configuration check and before any sub-model is
loaded; under the evident intent of line 49, the configuration
`train_text_encoder = True`, `gradient_accumulation_steps = 2`,
`num_processes = 2` is rejected with the documented `ValueError` before any
of the three sub-models is loaded. -/
theorem trainerInit_nameError_before_load :
    (∀ (flags : TrainerFlags) (numProcesses : Nat),
      trainerInitModels flags numProcesses
        = Except.error (PyError.nameError "logging_dir")) ∧
    trainerInitModelsIntended
        { trainTextEncoder := true, gradientAccumulationSteps := 2 } 2
      = Except.error (PyError.valueError gradAccumTextEncoderMsg) := by
  constructor
  · intro flags numProcesses
    rw [trainerInitModels, if_neg (by decide)]
  · decide

/-- Claim C7: `DataTextRealfake.sample` with the default
`random_start_line = None` raises `UnboundLocalError` on `num_lines` even for
a file with one line; when a start line is supplied and the real branch is
drawn, the returned sample has `real = 1` and
`input_text ++ output_text` reconstructs the sliced source text; when the
fake branch is drawn, the undefined name `output_tokens` raises `NameError`. -/
theorem sample_unbound_local :
    sample ["x".data] "f.py" none true
        = Except.error (PyError.unboundLocalError "num_lines") ∧
    sample ["ab".data, "cd".data] "f.py" (some 1) true
        = Except.ok
            { inputText := "c".data, outputText := "d".data,
              filepath := "f.py", real := 1 } ∧
    sample ["ab".data] "f.py" (some 0) false
        = Except.error (PyError.nameError "output_tokens") := by
  decide

theorem batchStep_true_globalStep (cs : Nat) (im : Bool) (st : TrainState) :
    (batchStep cs im true st).globalStep = st.globalStep + 1 := by
  simp [batchStep]

theorem runBatches_true_globalStep (cs maxT : Nat) (im : Bool) :
    ∀ (s : Nat) (st : TrainState), st.globalStep < maxT →
      (runBatches cs im maxT (List.replicate s true) st).globalStep
        = min (st.globalStep + s) maxT := by
  intro s
  induction s with
  | zero =>
    intro st h
    simp only [List.replicate, runBatches]
    omega
  | succ n ih =>
    intro st h
    rw [List.replicate_succ]
    simp only [runBatches]
    have hb := batchStep_true_globalStep cs im st
    by_cases hc : maxT ≤ (batchStep cs im true st).globalStep
    · rw [if_pos hc]
      omega
    · rw [if_neg hc]
      rw [ih _ (Nat.lt_of_not_le hc)]
      omega

theorem lt_ceilDiv_iff (s : Nat) (hs : 0 < s) (j n : Nat) :
    j < ceilDiv n s ↔ j * s < n := by
  rw [ceilDiv, Nat.lt_iff_add_one_le, Nat.le_div_iff_mul_le hs, Nat.succ_mul]
  omega

theorem ceilDiv_mul_ge (n s : Nat) (hs : 0 < s) : n ≤ ceilDiv n s * s := by
  by_contra h
  exact absurd ((lt_ceilDiv_iff s hs (ceilDiv n s) n).mpr (Nat.lt_of_not_le h))
    (lt_irrefl _)

theorem runEpochs_true_globalStep (cs maxT s : Nat) (im : Bool) :
    ∀ (m : Nat) (st : TrainState),
      st.globalStep ≤ maxT →
      maxT ≤ st.globalStep + m * s →
      (∀ j, j < m → st.globalStep + j * s < maxT) →
      (runEpochs cs im maxT (List.replicate m (List.replicate s true)) st).globalStep
        = maxT := by
  intro m
  induction m with
  | zero =>
    intro st h1 h2 _
    simp only [List.replicate, runEpochs]
    omega
  | succ n ih =>
    intro st h1 h2 h3
    rw [List.replicate_succ]
    simp only [runEpochs]
    have hst : st.globalStep < maxT := by
      have := h3 0 (Nat.succ_pos n)
      simpa using this
    have hrb := runBatches_true_globalStep cs maxT im s st hst
    have hsm : (n + 1) * s = n * s + s := Nat.succ_mul n s
    apply ih
    · omega
    · omega
    · intro j hj
      have h3' := h3 (j + 1) (by omega)
      have hjm : (j + 1) * s = j * s + s := Nat.succ_mul j s
      omega

/-- Claim C2: with `num_train_epochs` recomputed as
`ceil(max_train_steps / steps_per_epoch)` (line 210) and one optimizer update
per batch, the run performs exactly `max_train_steps` optimizer updates: the
inner loop's end-of-body check (lines 578-579) stops it as soon as
`global_step` reaches the budget, mid-epoch if needed, and the recomputed
epoch count provides no further epoch afterwards.  Concretely, with
`max_train_steps = 5` and 3 updates per epoch the outer loop runs exactly
`numTrainEpochsFinal 5 3 = 2` epochs, the run performs exactly 5 updates,
and the second epoch stops after 2 of its 3 batches (global step 3 to 5). -/
theorem trainLoop_stops_at_max :
    (∀ (maxT s cs : Nat) (im : Bool), 1 ≤ s →
      (trainRun maxT s cs im).globalStep = maxT) ∧
    numTrainEpochsFinal 5 3 = 2 ∧
    (trainRun 5 3 500 true).globalStep = 5 ∧
    runBatches 500 true 5 (List.replicate 3 true) { globalStep := 3, saves := [] }
      = { globalStep := 5, saves := [] } := by
  refine ⟨?_, by decide, by decide, by decide⟩
  intro maxT s cs im hs
  unfold trainRun numTrainEpochsFinal
  apply runEpochs_true_globalStep cs maxT s im (ceilDiv maxT s)
  · exact Nat.zero_le _
  · simpa using ceilDiv_mul_ge maxT s hs
  · intro j hj
    simpa using (lt_ceilDiv_iff s hs j maxT).mp hj

/-- Claim C2 witness: the general statement at `max_train_steps = 5`,
3 updates per epoch. -/
theorem trainLoop_stops_at_max_witness :
    (1 ≤ 3) ∧ (trainRun 5 3 500 true).globalStep = 5 :=
  ⟨by decide, trainLoop_stops_at_max.1 5 3 500 true (by decide)⟩

/-- Invariant satisfied by every checkpoint save event emitted by the loop. -/
def saveEventOk (cs : Nat) (isMain : Bool) (e : Nat × String) : Prop :=
  isMain = true ∧ 0 < e.1 ∧ cs ∣ e.1 ∧ e.2 = savePath e.1

theorem batchStep_saveEvents (cs : Nat) (im sync : Bool) (st : TrainState) :
    ∀ e ∈ (batchStep cs im sync st).saves, e ∈ st.saves ∨ saveEventOk cs im e := by
  intro e he
  cases sync with
  | false =>
    left
    simpa [batchStep] using he
  | true =>
    simp only [batchStep, if_true] at he
    by_cases hc : ((st.globalStep + 1) % cs == 0 && im) = true
    · rw [if_pos hc] at he
      rcases List.mem_append.mp he with h | h
      · exact Or.inl h
      · right
        simp only [Bool.and_eq_true, beq_iff_eq] at hc
        rcases List.mem_singleton.mp h with rfl
        exact ⟨hc.2, Nat.succ_pos _, Nat.dvd_of_mod_eq_zero hc.1, rfl⟩
    · rw [if_neg hc] at he
      exact Or.inl he

theorem runBatches_saveEvents (cs maxT : Nat) (im : Bool) :
    ∀ (flags : List Bool) (st : TrainState) (e : Nat × String),
      e ∈ (runBatches cs im maxT flags st).saves → e ∈ st.saves ∨ saveEventOk cs im e := by
  intro flags
  induction flags with
  | nil =>
    intro st e he
    left
    simpa [runBatches] using he
  | cons sync rest ih =>
    intro st e he
    simp only [runBatches] at he
    by_cases hc : maxT ≤ (batchStep cs im sync st).globalStep
    · rw [if_pos hc] at he
      exact batchStep_saveEvents cs im sync st e he
    · rw [if_neg hc] at he
      rcases ih _ e he with h | h
      · exact batchStep_saveEvents cs im sync st e h
      · exact Or.inr h

theorem runEpochs_saveEvents (cs maxT : Nat) (im : Bool) :
    ∀ (epochs : List (List Bool)) (st : TrainState) (e : Nat × String),
      e ∈ (runEpochs cs im maxT epochs st).saves → e ∈ st.saves ∨ saveEventOk cs im e := by
  intro epochs
  induction epochs with
  | nil =>
    intro st e he
    left
    simpa [runEpochs] using he
  | cons ep rest ih =>
    intro st e he
    simp only [runEpochs] at he
    rcases ih _ e he with h | h
    · exact runBatches_saveEvents cs maxT im ep st e h
    · exact Or.inr h

/-- Claim C8: throughout the training loop (any epochs, any sync pattern),
every checkpoint save event carries the main-process flag, a global step
that is a positive multiple of `checkpointing_steps`, and the deterministic
path `checkpoint-<global_step>`; a non-main process never writes any
checkpoint. -/
theorem checkpoint_saves_main_only (epochs : List (List Bool)) (maxT cs : Nat)
    (im : Bool) (hcs : 0 < cs) :
    (∀ e ∈ (runEpochs cs im maxT epochs { globalStep := 0, saves := [] }).saves,
      im = true ∧ 0 < e.1 ∧ cs ∣ e.1 ∧ e.2 = savePath e.1) ∧
    (im = false →
      (runEpochs cs im maxT epochs { globalStep := 0, saves := [] }).saves = []) := by
  have key : ∀ e ∈ (runEpochs cs im maxT epochs
      { globalStep := 0, saves := [] }).saves, saveEventOk cs im e := by
    intro e he
    rcases runEpochs_saveEvents cs maxT im epochs _ e he with h | h
    · simp at h
    · exact h
  refine ⟨fun e he => key e he, fun him => ?_⟩
  rw [List.eq_nil_iff_forall_not_mem]
  intro e he
  exact absurd (him ▸ (key e he).1) Bool.false_ne_true

/-- Claim C8 witness: `checkpointing_steps = 2`, one epoch of four sync
batches on the main process. -/
theorem checkpoint_saves_main_only_witness :
    (0 < 2) ∧
    ((∀ e ∈ (runEpochs 2 true 10 [[true, true, true, true]]
        { globalStep := 0, saves := [] }).saves,
      (true : Bool) = true ∧ 0 < e.1 ∧ 2 ∣ e.1 ∧ e.2 = savePath e.1) ∧
    ((true : Bool) = false →
      (runEpochs 2 true 10 [[true, true, true, true]]
        { globalStep := 0, saves := [] }).saves = [])) :=
  ⟨by decide, checkpoint_saves_main_only [[true, true, true, true]] 10 2 true (by decide)⟩

/-- Claim C5: the dispatch of lines 542-547 selects the injected noise as
target for `prediction_type = "epsilon"`, the velocity of
`(latents, noise, timesteps)` for `"v_prediction"`, and for any other value
raises `ValueError` so that the loss is never computed. -/
theorem predictionType_dispatch {α β : Type} (pt : String)
    (latents noise timesteps : α) (mseLoss : NoiseTarget α → β) :
    (pt = "epsilon" → batchLoss pt latents noise timesteps mseLoss
        = Except.ok (mseLoss (NoiseTarget.fromNoise noise))) ∧
    (pt = "v_prediction" → batchLoss pt latents noise timesteps mseLoss
        = Except.ok (mseLoss (NoiseTarget.velocity latents noise timesteps))) ∧
    (pt ≠ "epsilon" → pt ≠ "v_prediction" →
      batchLoss pt latents noise timesteps mseLoss
          = Except.error (PyError.valueError ("Unknown prediction type " ++ pt)) ∧
      ∀ b, batchLoss pt latents noise timesteps mseLoss ≠ Except.ok b) := by
  refine ⟨fun h1 => ?_, fun h2 => ?_, fun h1 h2 => ?_⟩
  · subst h1
    simp [batchLoss, selectTarget, Except.map]
  · subst h2
    simp [batchLoss, selectTarget, Except.map]
  · constructor
    · simp [batchLoss, selectTarget, Except.map, h1, h2]
    · intro b
      simp [batchLoss, selectTarget, Except.map, h1, h2]

/-- Claim C5 witness: the dispatch at `"v_prediction"` and at the unknown
value `"foo"`. -/
theorem predictionType_dispatch_witness :
    batchLoss "v_prediction" (1 : Nat) 2 3 id
        = Except.ok (NoiseTarget.velocity 1 2 3) ∧
    batchLoss "foo" (1 : Nat) 2 3 id
        = Except.error (PyError.valueError ("Unknown prediction type " ++ "foo")) :=
  ⟨(predictionType_dispatch "v_prediction" 1 2 3 id).2.1 rfl,
   ((predictionType_dispatch "foo" 1 2 3 id).2.2 (by decide) (by decide)).1⟩

/-- Claim C10: for every attribute name outside the protected set,
`ModuleWrapper.__getattr__` returns a callable that forwards calls to the
delegate's attribute of that name; it never returns the delegate's attribute
value itself, so a non-callable delegate attribute is seen through the
wrapper as a callable, not as the value. -/
theorem wrapperGetattr_returns_callable {α : Type}
    (selfAttr moduleAttr : String → PyVal α) (key : String)
    (h : key ∉ protected_attributes) :
    isCallable (wrapperGetattr selfAttr moduleAttr key) = true ∧
    (∀ args, callPyVal (wrapperGetattr selfAttr moduleAttr key) args
        = callPyVal (moduleAttr key) args) ∧
    (∀ a : α, moduleAttr key = PyVal.base a →
        wrapperGetattr selfAttr moduleAttr key ≠ moduleAttr key) := by
  have hw : wrapperGetattr selfAttr moduleAttr key
      = PyVal.func (fun args => callPyVal (moduleAttr key) args) := by
    rw [wrapperGetattr, if_neg h]
  refine ⟨by rw [hw]; rfl, fun args => by rw [hw]; rfl, fun a ha => by rw [hw, ha]; simp⟩

/-- Claim C10 witness: the non-protected name `forward` on a delegate whose
attribute is the plain value `5`. -/
theorem wrapperGetattr_returns_callable_witness :
    ("forward" ∉ protected_attributes) ∧
    (isCallable (wrapperGetattr (fun _ => PyVal.base (0 : Nat))
        (fun _ => PyVal.base 5) "forward") = true ∧
    (∀ args, callPyVal (wrapperGetattr (fun _ => PyVal.base (0 : Nat))
        (fun _ => PyVal.base 5) "forward") args
        = callPyVal (PyVal.base 5) args) ∧
    (∀ a : Nat, PyVal.base 5 = PyVal.base a →
        wrapperGetattr (fun _ => PyVal.base (0 : Nat))
          (fun _ => PyVal.base 5) "forward" ≠ PyVal.base 5)) :=
  ⟨by decide,
   wrapperGetattr_returns_callable (fun _ => PyVal.base 0)
     (fun _ => PyVal.base 5) "forward" (by decide)⟩

theorem pairwise_rel_getLast {α : Type} {R : α → α → Prop} :
    ∀ (l : List α) (hl : l ≠ []), l.Pairwise R → ∀ a ∈ l,
      a = l.getLast hl ∨ R a (l.getLast hl) := by
  intro l
  induction l with
  | nil => intro hl; exact absurd rfl hl
  | cons x xs ih =>
    intro hl hp a ha
    cases xs with
    | nil =>
      rcases List.mem_singleton.mp ha with rfl
      left
      rfl
    | cons y t =>
      have hne : (y :: t) ≠ [] := List.cons_ne_nil y t
      have hgl : (x :: y :: t).getLast hl = (y :: t).getLast hne :=
        List.getLast_cons hne
      have hp' := List.pairwise_cons.mp hp
      rcases List.mem_cons.mp ha with rfl | hmem
      · right
        rw [hgl]
        exact hp'.1 _ (List.getLast_mem hne)
      · rw [hgl]
        exact ih hne hp'.2 a hmem

/-- Claim C3: for any directory listing whose `checkpoint`-prefixed entries
are nonempty, resuming from `"latest"` selects an entry whose parsed trailing
step number is maximal among them (numeric ordering via the sort key of line
238); among `checkpoint-10`, `checkpoint-2`, `checkpoint-100` it selects
`checkpoint-100`, not the lexically greatest `checkpoint-2`. -/
theorem latestCheckpoint_numeric_max :
    (∀ dirs : List String, dirs.filter isCheckpointDir ≠ [] →
      ∃ d, selectLatestCheckpoint dirs = some d ∧
        d ∈ dirs.filter isCheckpointDir ∧
        ∀ e ∈ dirs.filter isCheckpointDir, checkpointKey e ≤ checkpointKey d) ∧
    selectLatestCheckpoint ["checkpoint-10", "checkpoint-2", "checkpoint-100"]
      = some "checkpoint-100" ∧
    selectLatestCheckpoint ["checkpoint-10", "checkpoint-2", "checkpoint-100"]
      ≠ some "checkpoint-2" := by
  have general : ∀ dirs : List String, dirs.filter isCheckpointDir ≠ [] →
      ∃ d, selectLatestCheckpoint dirs = some d ∧
        d ∈ dirs.filter isCheckpointDir ∧
        ∀ e ∈ dirs.filter isCheckpointDir, checkpointKey e ≤ checkpointKey d := by
    intro dirs h
    have hperm := List.mergeSort_perm (dirs.filter isCheckpointDir)
      (fun a b => decide (checkpointKey a ≤ checkpointKey b))
    have hne : (dirs.filter isCheckpointDir).mergeSort
        (fun a b => decide (checkpointKey a ≤ checkpointKey b)) ≠ [] := by
      intro hnil
      apply h
      have h2 := hperm.symm
      rw [hnil] at h2
      exact List.Perm.eq_nil h2
    refine ⟨((dirs.filter isCheckpointDir).mergeSort
        (fun a b => decide (checkpointKey a ≤ checkpointKey b))).getLast hne,
      ?_, ?_, ?_⟩
    · rw [selectLatestCheckpoint]
      exact List.getLast?_eq_getLast _ hne
    · exact List.mem_mergeSort.mp (List.getLast_mem hne)
    · intro e he
      have hpw := @List.sorted_mergeSort String
        (fun a b => decide (checkpointKey a ≤ checkpointKey b))
        (fun a b c hab hbc => by
          simp only [decide_eq_true_eq] at *
          exact Nat.le_trans hab hbc)
        (fun a b => by
          simp only [Bool.or_eq_true, decide_eq_true_eq]
          exact Nat.le_total _ _)
        (dirs.filter isCheckpointDir)
      have he' := (@List.mem_mergeSort String
        (fun a b => decide (checkpointKey a ≤ checkpointKey b)) e
        (dirs.filter isCheckpointDir)).mpr he
      rcases pairwise_rel_getLast _ hne hpw e he' with heq | hrel
      · rw [heq]
      · exact of_decide_eq_true hrel
  have hconc : selectLatestCheckpoint
      ["checkpoint-10", "checkpoint-2", "checkpoint-100"] = some "checkpoint-100" := by
    obtain ⟨d, hsel, hmem, hmax⟩ :=
      general ["checkpoint-10", "checkpoint-2", "checkpoint-100"] (by decide)
    have hfil : (["checkpoint-10", "checkpoint-2", "checkpoint-100"] :
        List String).filter isCheckpointDir
        = ["checkpoint-10", "checkpoint-2", "checkpoint-100"] := by decide
    rw [hfil] at hmem hmax
    have h100 := hmax "checkpoint-100" (by decide)
    simp only [List.mem_cons, List.not_mem_nil, or_false] at hmem
    rcases hmem with rfl | rfl | rfl
    · exact absurd h100 (by decide)
    · exact absurd h100 (by decide)
    · exact hsel
  refine ⟨general, hconc, ?_⟩
  rw [hconc]
  intro hcontra
  have : ("checkpoint-100" : String) = "checkpoint-2" := Option.some.inj hcontra
  exact absurd this (by decide)

/-- Claim C3 witness: the general selection statement at the concrete listing
`checkpoint-10`, `checkpoint-2`, `checkpoint-100`. -/
theorem latestCheckpoint_numeric_max_witness :
    ((["checkpoint-10", "checkpoint-2", "checkpoint-100"] : List String).filter
        isCheckpointDir ≠ []) ∧
    (∃ d, selectLatestCheckpoint ["checkpoint-10", "checkpoint-2", "checkpoint-100"]
        = some d ∧
      d ∈ (["checkpoint-10", "checkpoint-2", "checkpoint-100"] : List String).filter
        isCheckpointDir ∧
      ∀ e ∈ (["checkpoint-10", "checkpoint-2", "checkpoint-100"] : List String).filter
        isCheckpointDir, checkpointKey e ≤ checkpointKey d) :=
  ⟨by decide,
   latestCheckpoint_numeric_max.1
     ["checkpoint-10", "checkpoint-2", "checkpoint-100"] (by decide)⟩

end Commune
